import Mathlib

/-
Shallow embedding of src/src/waste_tracker.py (class NuclearWasteTracker).

Modeling conventions:
- Timestamps (ISO strings in the code) are modeled as real numbers counting
  days; datetime.now() becomes an explicit `now` argument, timedelta(days = d)
  becomes addition of d, and (a - b).days becomes the integer floor of a - b.
- Float activities, volumes, masses and half-lives are modeled as rationals;
  the transcendental decay arithmetic (math.log, 0.5 ** x) lives in the reals.
- The two SQLite tables become in-memory lists kept in row order; fetchone on
  a keyed SELECT becomes List.find?; the AUTOINCREMENT transfer id becomes an
  explicit counter carried in the state.
- The isotopes JSON column is modeled as the decoded list of isotope names
  (json.dumps and json.loads are inverse on it).
- uuid generation in register_container is modeled by passing the fresh id in.
-/

namespace WasteTracker

/-- Half-life table in years, from NuclearWasteTracker.HALF_LIVES. -/
def HALF_LIVES : List (String × ℚ) :=
  [("Cs-137", 30.17), ("Co-60", 5.27), ("Sr-90", 28.8),
   ("H-3", 12.32), ("C-14", 5730), ("Pu-239", 24100)]

/-- Python dict lookup self.HALF_LIVES.get(iso) with no default. -/
def halfLifeLookup (iso : String) : Option ℚ :=
  (HALF_LIVES.find? (fun p => p.1 == iso)).map (fun p => p.2)

/-- self.HALF_LIVES.get(iso, 1): unknown isotopes fall back to one year. -/
def halfLifeOf (iso : String) : ℚ :=
  (halfLifeLookup iso).getD 1

/-- Storage class activity limits in Bq, from NuclearWasteTracker.STORAGE_LIMITS. -/
def STORAGE_LIMITS : List (String × ℚ) :=
  [("low_level", 1000000), ("intermediate", 1000000000),
   ("high_level", 1000000000000), ("transuranic", 1000000), ("exempt", 1000)]

/-- self.STORAGE_LIMITS.get(storage_class, 1e6): unknown classes fall back
to the low_level limit. -/
def storageLimit (sc : String) : ℚ :=
  ((STORAGE_LIMITS.find? (fun p => p.1 == sc)).map (fun p => p.2)).getD 1000000

/-- A row of the containers table (dataclass WasteContainer). -/
structure WasteContainer where
  id : String
  label : String
  waste_type : String
  isotopes : List String
  activity_bq : ℚ
  volume_l : ℚ
  mass_kg : ℚ
  location : String
  storage_class : String
  created_at : ℝ
  decay_date : ℝ
  status : String

/-- A row of the transfers table (dataclass TransferRecord), without its
auto-assigned integer key. -/
structure TransferRecord where
  container_id : String
  from_location : String
  to_location : String
  transferred_by : String
  ts : ℝ
  manifested : Bool

/-- The whole database: both tables in row order plus the AUTOINCREMENT
counter for the transfers table. -/
structure State where
  containers : List WasteContainer
  transfers : List (Nat × TransferRecord)
  nextTransferId : Nat

/-- SELECT ... FROM containers WHERE id = ? followed by fetchone: the first
row with the given id, if any. -/
def findContainer (s : State) (container_id : String) : Option WasteContainer :=
  s.containers.find? (fun c => c.id == container_id)

/-- SELECT ... FROM transfers WHERE id = ? followed by fetchone. -/
def findTransfer (s : State) (transfer_id : Nat) : Option TransferRecord :=
  (s.transfers.find? (fun p => p.1 == transfer_id)).map (fun p => p.2)

/-- max(self.HALF_LIVES.get(iso, 1) for iso in isotopes): Python max over a
nonempty sequence. The empty case is never taken by the caller; it is given
the dummy value 0 here. -/
def maxHalfLife : List String → ℚ
  | [] => 0
  | i :: rest => rest.foldl (fun a iso => max a (halfLifeOf iso)) (halfLifeOf i)

/-- NuclearWasteTracker._calc_decay_date(isotopes, initial_activity): the
empty-isotope branch returns now + 365 days; activities at or below the
1000 Bq safe threshold return now; otherwise the exponential-decay inversion
years = max_half_life * log(A0 / 1000) / log 2 gives now + years * 365 days. -/
noncomputable def calcDecayDate (isotopes : List String) (initial_activity : ℚ)
    (now : ℝ) : ℝ :=
  if isotopes = [] then now + 365
  else if initial_activity ≤ 1000 then now
  else
    now + (maxHalfLife isotopes : ℝ) *
      Real.log ((initial_activity : ℝ) / 1000) / Real.log 2 * 365

/-- NuclearWasteTracker.register_container: computes the decay date, then
inserts one new row with status "active". The uuid is passed in as
container_id and datetime.now() as now. Returns the new id and the new state. -/
noncomputable def registerContainer (s : State) (container_id label waste_type : String)
    (isotopes : List String) (activity_bq volume_l mass_kg : ℚ)
    (location storage_class : String) (now : ℝ) : String × State :=
  let decay_date := calcDecayDate isotopes activity_bq now
  let c : WasteContainer :=
    { id := container_id, label := label, waste_type := waste_type,
      isotopes := isotopes, activity_bq := activity_bq, volume_l := volume_l,
      mass_kg := mass_kg, location := location, storage_class := storage_class,
      created_at := now, decay_date := decay_date, status := "active" }
  (container_id, { s with containers := s.containers ++ [c] })

/-- NuclearWasteTracker.transfer: fetches the container location by id and
returns False leaving the database untouched when no row exists; otherwise
inserts one transfer row (manifested = False) and updates the location of
every containers row with that id (the UPDATE ... WHERE id = ? statement). -/
def transfer (s : State) (container_id to_location transferred_by : String)
    (now : ℝ) : Bool × State :=
  match findContainer s container_id with
  | none => (false, s)
  | some c =>
    let tr : TransferRecord :=
      { container_id := container_id, from_location := c.location,
        to_location := to_location, transferred_by := transferred_by,
        ts := now, manifested := false }
    (true,
      { containers := s.containers.map (fun d =>
          if d.id == container_id then { d with location := to_location } else d),
        transfers := s.transfers ++ [(s.nextTransferId, tr)],
        nextTransferId := s.nextTransferId + 1 })

/-- The average half-life used by decay_correct:
sum(self.HALF_LIVES.get(iso, 1) for iso in isotopes) / len(isotopes) when the
list is nonempty, and 1 otherwise. -/
def avgHalfLife (isotopes : List String) : ℚ :=
  if isotopes = [] then 1
  else (isotopes.map halfLifeOf).sum / isotopes.length

/-- NuclearWasteTracker.decay_correct: returns 0 for an unknown container id;
otherwise A0 * 0.5 ** (elapsed_years / avg_half_life) with
elapsed_years = (now - created).days / 365.25, the .days being the floor of
the elapsed time in days. -/
noncomputable def decayCorrect (s : State) (container_id : String) (now : ℝ) : ℝ :=
  match findContainer s container_id with
  | none => 0
  | some c =>
    (c.activity_bq : ℝ) *
      (0.5 : ℝ) ^ ((((⌊now - c.created_at⌋ : ℤ) : ℝ) / 365.25) /
        (avgHalfLife c.isotopes : ℝ))

/-- Python truthiness of an optional string argument: None and the empty
string are falsy, any other string is truthy. -/
def truthyStr : Option String → Bool
  | none => false
  | some s => s != ""

/-- NuclearWasteTracker.get_inventory: all rows with status active, with a
location equality filter added only when the location argument is truthy, and
likewise for waste_type. -/
def getInventory (s : State) (location waste_type : Option String) :
    List WasteContainer :=
  s.containers.filter (fun c =>
    c.status == "active"
      && (!truthyStr location || c.location == location.getD "")
      && (!truthyStr waste_type || c.waste_type == waste_type.getD ""))

/-- One entry of the storage_class_violations list built by compliance_check. -/
structure Violation where
  container_id : String
  activity_bq : ℚ
  limit_bq : ℚ

/-- The dict of issue lists returned by compliance_check. -/
structure ComplianceIssues where
  storage_class_violations : List Violation
  expired_containers : List String
  missing_manifests : List String

open Classical in
/-- NuclearWasteTracker.compliance_check over a database snapshot, with
datetime.now() passed as now. Active rows whose stored activity exceeds
their storage class limit are violations; active rows whose decay_date is
strictly before now are expired; active rows having at least one transfer
row with manifested = 0 are missing manifests. -/
noncomputable def complianceCheck (s : State) (now : ℝ) : ComplianceIssues :=
  let active := s.containers.filter (fun c => c.status == "active")
  let violations := active.filterMap (fun c =>
    if c.activity_bq > storageLimit c.storage_class then
      some { container_id := c.id, activity_bq := c.activity_bq,
             limit_bq := storageLimit c.storage_class }
    else none)
  let expired := (s.containers.filter (fun c =>
    decide (c.decay_date < now) && c.status == "active")).map (fun c => c.id)
  let unmanifested := (s.transfers.filter (fun p => p.2.manifested == false)).map
    (fun p => p.2.container_id)
  let missing := (s.containers.filter (fun c =>
    unmanifested.contains c.id && c.status == "active")).map (fun c => c.id)
  { storage_class_violations := violations,
    expired_containers := expired,
    missing_manifests := missing }

/-- The domain data joined into the manifest document by generate_manifest:
the transfer row fields together with the descriptive container fields it
selects. The string templating around them is presentation, excluded from
the core. -/
structure ManifestData where
  container_id : String
  label : String
  waste_type : String
  isotopes : List String
  activity_bq : ℚ
  volume_l : ℚ
  mass_kg : ℚ
  from_location : String
  to_location : String
  transferred_by : String
  ts : ℝ
  transfer_id : Nat

/-- NuclearWasteTracker.generate_manifest: the empty-string not-found returns
of the code are modeled as none, and the rendered document as the record of
the data it interpolates. Fails when the transfer id has no row, or when the
container id on the transfer row has no containers row. -/
def generateManifest (s : State) (transfer_id : Nat) : Option ManifestData :=
  match findTransfer s transfer_id with
  | none => none
  | some t =>
    match findContainer s t.container_id with
    | none => none
    | some c =>
      some { container_id := t.container_id, label := c.label,
             waste_type := c.waste_type, isotopes := c.isotopes,
             activity_bq := c.activity_bq, volume_l := c.volume_l,
             mass_kg := c.mass_kg, from_location := t.from_location,
             to_location := t.to_location, transferred_by := t.transferred_by,
             ts := t.ts, transfer_id := transfer_id }

/-- NuclearWasteTracker.total_activity: SUM(activity_bq) over active rows,
restricted to one location when that argument is truthy. The SQL NULL sum on
no rows, mapped to 0.0 by the code, is the empty sum 0 here. -/
def totalActivity (s : State) (location : Option String) : ℚ :=
  ((s.containers.filter (fun c =>
    c.status == "active"
      && (!truthyStr location || c.location == location.getD ""))).map
    (fun c => c.activity_bq)).sum

/-- Modelled from the spec (section 4.1 of current_activity): the current
activity formula the spec states, written from its words: the average (not
max) half-life across listed isotopes with unknown identifiers resolving to
one year and the empty set defaulting to one year, elapsed years as elapsed
days over 365.25, and A0 * 0.5 ^ (elapsed_years / avg_half_life). -/
noncomputable def spec_current_activity (isotopes : List String)
    (initial_activity_bq : ℚ) (created_at now : ℝ) : ℝ :=
  let avg : ℚ :=
    if isotopes = [] then 1
    else (isotopes.map (fun i => (halfLifeLookup i).getD 1)).sum / isotopes.length
  (initial_activity_bq : ℝ) *
    (0.5 : ℝ) ^ ((((⌊now - created_at⌋ : ℤ) : ℝ) / 365.25) / (avg : ℝ))

/-- An empty database, as created by _init_db. -/
def s0 : State := { containers := [], transfers := [], nextTransferId := 1 }

/-- A sample registered container used to instantiate theorems. -/
def c1 : WasteContainer :=
  { id := "c1", label := "Drum 1", waste_type := "low_level",
    isotopes := ["Cs-137"], activity_bq := 7000, volume_l := 10, mass_kg := 20,
    location := "siteA", storage_class := "low_level", created_at := 0,
    decay_date := 400, status := "active" }

/-- A database holding just the sample container c1. -/
def s1 : State := { containers := [c1], transfers := [], nextTransferId := 1 }

/-- A sample exempt-class container whose stored activity 5000 Bq exceeds the
exempt limit of 1000 Bq. -/
def c2 : WasteContainer :=
  { id := "c2", label := "Vial 2", waste_type := "exempt",
    isotopes := [], activity_bq := 5000, volume_l := 1, mass_kg := 1,
    location := "siteB", storage_class := "exempt", created_at := 0,
    decay_date := 365, status := "active" }

/-- A database holding just the sample container c2. -/
def s2 : State := { containers := [c2], transfers := [], nextTransferId := 1 }

lemma one_le_halfLifeOf (iso : String) : 1 ≤ halfLifeOf iso := by
  unfold halfLifeOf halfLifeLookup
  cases h : HALF_LIVES.find? (fun p => p.1 == iso) with
  | none => norm_num
  | some p =>
    have hmem : p ∈ HALF_LIVES := List.mem_of_find?_eq_some h
    fin_cases hmem <;> norm_num

lemma le_foldl_max (l : List String) (init : ℚ) :
    init ≤ l.foldl (fun a iso => max a (halfLifeOf iso)) init := by
  induction l generalizing init with
  | nil => exact le_refl init
  | cons x xs ih =>
    simp only [List.foldl_cons]
    exact le_trans (le_max_left _ _) (ih (max init (halfLifeOf x)))

lemma one_le_maxHalfLife (i : String) (rest : List String) :
    1 ≤ maxHalfLife (i :: rest) :=
  le_trans (one_le_halfLifeOf i) (le_foldl_max rest (halfLifeOf i))

/-- Claim C2: with an empty isotope list, _calc_decay_date returns
now + 365 days for every initial activity, the threshold being irrelevant
because the empty-list branch is taken first. -/
theorem calcDecayDate_empty_isotopes (a : ℚ) (now : ℝ) :
    calcDecayDate [] a now = now + 365 := by
  simp [calcDecayDate]

/-- Claim C1 counterexample: the claim includes the empty isotope set, but
with no isotopes and activity 0 (nonnegative and at most 1000) the estimator
takes the empty-list branch first and returns now + 365 days, not now: at
now = 0 the result is 365, not 0. -/
theorem calcDecayDate_empty_safe_ne_now :
    calcDecayDate [] 0 0 ≠ 0 ∧ calcDecayDate [] 0 0 = 365 := by
  constructor <;> norm_num [calcDecayDate]

/-- Claim C1 (amended): for every nonnegative activity at most 1000 Bq and
every nonempty isotope set, _calc_decay_date returns now, reporting the
container as already safe; the empty isotope set instead returns
now + 365 days. -/
theorem calcDecayDate_safe_nonempty_eq_now (i : String) (rest : List String)
    (a : ℚ) (now : ℝ) (h0 : 0 ≤ a) (h1 : a ≤ 1000) :
    calcDecayDate (i :: rest) a now = now := by
  simp [calcDecayDate, h1]

/-- Claim C1 witness at isotopes = Cs-137, activity = 500, now = 0. -/
theorem calcDecayDate_safe_nonempty_eq_now_witness :
    (0 : ℚ) ≤ 500 ∧ (500 : ℚ) ≤ 1000 ∧ calcDecayDate ["Cs-137"] 500 0 = 0 :=
  ⟨by norm_num, by norm_num,
    calcDecayDate_safe_nonempty_eq_now "Cs-137" [] 500 0 (by norm_num)
      (by norm_num)⟩

/-- Claim C4: for every isotope set and every nonnegative initial activity,
the timestamp returned by _calc_decay_date is at least now. -/
theorem calcDecayDate_ge_now (isotopes : List String) (a : ℚ) (now : ℝ)
    (h0 : 0 ≤ a) : now ≤ calcDecayDate isotopes a now := by
  unfold calcDecayDate
  split
  · linarith
  · split
    · exact le_refl now
    · rename_i hne hgt
      push_neg at hgt
      have hmax : (1 : ℚ) ≤ maxHalfLife isotopes := by
        cases isotopes with
        | nil => exact absurd rfl hne
        | cons i rest => exact one_le_maxHalfLife i rest
      have hcast : (1000 : ℝ) ≤ (a : ℝ) := by exact_mod_cast hgt.le
      have hlog : 0 ≤ Real.log ((a : ℝ) / 1000) := by
        apply Real.log_nonneg
        rw [le_div_iff₀ (by norm_num : (0 : ℝ) < 1000)]
        linarith
      have hlog2 : 0 < Real.log 2 := Real.log_pos (by norm_num)
      have hterm : 0 ≤ (maxHalfLife isotopes : ℝ) *
          Real.log ((a : ℝ) / 1000) / Real.log 2 * 365 := by
        apply mul_nonneg
        · apply div_nonneg
          · apply mul_nonneg
            · exact_mod_cast le_trans zero_le_one hmax
            · exact hlog
          · exact hlog2.le
        · norm_num
      linarith

/-- Claim C4 witness at isotopes = Cs-137, activity = 2000, now = 0. -/
theorem calcDecayDate_ge_now_witness :
    (0 : ℚ) ≤ 2000 ∧ (0 : ℝ) ≤ calcDecayDate ["Cs-137"] 2000 0 :=
  ⟨by norm_num, calcDecayDate_ge_now ["Cs-137"] 2000 0 (by norm_num)⟩

/-- Claim C3: for every existing container, decay_correct returns
initial activity times 0.5 to the power elapsed_years over the average (not
maximum) half-life of its listed isotopes, unknown isotopes counting one
year and the empty set defaulting to one year, and at elapsed time zero it
returns the initial activity exactly. -/
theorem decayCorrect_eq_spec (s : State) (container_id : String) (now : ℝ)
    (c : WasteContainer) (h : findContainer s container_id = some c) :
    decayCorrect s container_id now =
      spec_current_activity c.isotopes c.activity_bq c.created_at now
    ∧ (now = c.created_at →
        decayCorrect s container_id now = (c.activity_bq : ℝ)) := by
  have h1 : decayCorrect s container_id now =
      (c.activity_bq : ℝ) *
        (0.5 : ℝ) ^ ((((⌊now - c.created_at⌋ : ℤ) : ℝ) / 365.25) /
          (avgHalfLife c.isotopes : ℝ)) := by
    unfold decayCorrect
    rw [h]
  constructor
  · rw [h1]
    rfl
  · intro hnow
    rw [h1, hnow]
    simp [Real.rpow_zero]

/-- Claim C3 witness: on the database s1 at now equal to the creation time
of container c1, decay_correct returns the initial 7000 Bq exactly. -/
theorem decayCorrect_eq_spec_witness :
    decayCorrect s1 "c1" 0 = ((7000 : ℚ) : ℝ) :=
  (decayCorrect_eq_spec s1 "c1" 0 c1 rfl).2 rfl

/-- Claim C6: transfer on a container id with no matching row returns False
and leaves the whole database unchanged: no container row is modified and no
transfer row is appended. -/
theorem transfer_not_found_unchanged (s : State)
    (container_id to_location transferred_by : String) (now : ℝ)
    (h : findContainer s container_id = none) :
    transfer s container_id to_location transferred_by now = (false, s) := by
  unfold transfer
  rw [h]

/-- Claim C6 witness: transferring an unknown id in the empty database. -/
theorem transfer_not_found_unchanged_witness :
    transfer s0 "nope" "siteB" "alice" 0 = (false, s0) :=
  transfer_not_found_unchanged s0 "nope" "siteB" "alice" 0 rfl

/-- Claim C7: a successful transfer returns True; it rewrites the container
list so that rows with the target id get only their location field replaced
by to_location and all other rows stay identical; no decay_date of any row
changes; exactly one transfer row is appended, carrying the pre-transfer
location as from_location and manifested = false; and every row with a
different id is still present unchanged. -/
theorem transfer_success_frame (s : State)
    (container_id to_location transferred_by : String) (now : ℝ)
    (c : WasteContainer)
    (hids : (s.containers.map (fun d => d.id)).Nodup)
    (h : findContainer s container_id = some c) :
    (transfer s container_id to_location transferred_by now).1 = true
    ∧ (transfer s container_id to_location transferred_by now).2.containers
        = s.containers.map (fun d =>
            if d.id = container_id then { d with location := to_location }
            else d)
    ∧ (transfer s container_id to_location transferred_by now).2.containers.map
          (fun d => d.decay_date)
        = s.containers.map (fun d => d.decay_date)
    ∧ (transfer s container_id to_location transferred_by now).2.transfers
        = s.transfers ++ [(s.nextTransferId,
            { container_id := container_id, from_location := c.location,
              to_location := to_location, transferred_by := transferred_by,
              ts := now, manifested := false })]
    ∧ ∀ d ∈ s.containers, d.id ≠ container_id →
        d ∈ (transfer s container_id to_location transferred_by now).2.containers := by
  unfold transfer
  rw [h]
  refine ⟨rfl, ?_, ?_, rfl, ?_⟩
  · apply List.map_congr_left
    intro d _
    by_cases hd : d.id = container_id
    · simp [hd]
    · simp [hd]
  · simp only [List.map_map]
    apply List.map_congr_left
    intro d _
    by_cases hd : d.id = container_id
    · simp [Function.comp, hd]
    · simp [Function.comp, hd]
  · intro d hd hne
    refine List.mem_map.mpr ⟨d, hd, ?_⟩
    simp [hne]

/-- Claim C7 witness: transferring the sample container c1 succeeds and
leaves every decay_date unchanged. -/
theorem transfer_success_frame_witness :
    (transfer s1 "c1" "siteB" "bob" 5).1 = true
    ∧ (transfer s1 "c1" "siteB" "bob" 5).2.containers.map (fun d => d.decay_date)
        = s1.containers.map (fun d => d.decay_date) :=
  ⟨(transfer_success_frame s1 "c1" "siteB" "bob" 5 c1 (by simp [s1]) rfl).1,
   (transfer_success_frame s1 "c1" "siteB" "bob" 5 c1 (by simp [s1]) rfl).2.2.1⟩

/-- Claim C5: over a database whose container ids are distinct, an active
container is reported as a storage class violation exactly when its stored
activity strictly exceeds the limit of its storage class, the limit table
being low_level 1e6, intermediate 1e9, high_level 1e12, transuranic 1e6 and
exempt 1e3 Bq, with every unknown storage class defaulting to 1e6 Bq. -/
theorem complianceCheck_storage_violation_iff (s : State) (now : ℝ)
    (c : WasteContainer)
    (hids : (s.containers.map (fun d => d.id)).Nodup)
    (hc : c ∈ s.containers) (hact : c.status = "active") :
    (c.id ∈ (complianceCheck s now).storage_class_violations.map
        (fun v => v.container_id)
      ↔ c.activity_bq > storageLimit c.storage_class)
    ∧ storageLimit "low_level" = 1000000
    ∧ storageLimit "intermediate" = 1000000000
    ∧ storageLimit "high_level" = 1000000000000
    ∧ storageLimit "transuranic" = 1000000
    ∧ storageLimit "exempt" = 1000
    ∧ ∀ sc : String, sc ∉ ["low_level", "intermediate", "high_level",
        "transuranic", "exempt"] → storageLimit sc = 1000000 := by
  refine ⟨?_, rfl, rfl, rfl, rfl, rfl, ?_⟩
  · constructor
    · intro hmem
      simp only [complianceCheck, List.mem_map, List.mem_filterMap,
        List.mem_filter] at hmem
      obtain ⟨v, ⟨d, ⟨hd, hdact⟩, hv⟩, hvid⟩ := hmem
      by_cases hgt : d.activity_bq > storageLimit d.storage_class
      · rw [if_pos hgt] at hv
        have hdid : d.id = c.id := by
          injection hv with hrec
          rw [← hrec] at hvid
          exact hvid
        have hdc : d = c := List.inj_on_of_nodup_map hids hd hc hdid
        rw [← hdc]
        exact hgt
      · rw [if_neg hgt] at hv
        exact absurd hv (by simp)
    · intro hgt
      simp only [complianceCheck, List.mem_map, List.mem_filterMap,
        List.mem_filter]
      refine ⟨⟨c.id, c.activity_bq, storageLimit c.storage_class⟩,
        ⟨c, ⟨hc, by simp [hact]⟩, ?_⟩, rfl⟩
      rw [if_pos hgt]
  · intro sc hsc
    unfold storageLimit
    have hnone : STORAGE_LIMITS.find? (fun p => p.1 == sc) = none := by
      rw [List.find?_eq_none]
      intro p hp
      fin_cases hp <;>
      · simp only [beq_iff_eq]
        rintro rfl
        simp at hsc
    rw [hnone]
    rfl

/-- Claim C5 witness: the exempt container c2 with stored activity 5000 Bq
is reported, its limit being 1000 Bq. -/
theorem complianceCheck_storage_violation_iff_witness :
    "c2" ∈ (complianceCheck s2 0).storage_class_violations.map
      (fun v => v.container_id) :=
  ((complianceCheck_storage_violation_iff s2 0 c2 (by simp [s2])
    (List.mem_cons_self c2 []) rfl).1).mpr (by decide)

/-- Claim C8 counterexample: registering with activity -5 Bq is not rejected:
register_container returns the fresh id as on any success, the row is
inserted with the negative activity stored as given, and _calc_decay_date on
the negative activity silently returns now (at now = 0, the value 0) instead
of failing. -/
theorem register_negative_not_rejected :
    (registerContainer s0 "id1" "Drum N" "low_level" ["Cs-137"] (-5) 1 1
      "siteA" "low_level" 0).1 = "id1"
    ∧ ((registerContainer s0 "id1" "Drum N" "low_level" ["Cs-137"] (-5) 1 1
        "siteA" "low_level" 0).2.containers.map (fun c => c.activity_bq))
      = [(-5 : ℚ)]
    ∧ calcDecayDate ["Cs-137"] (-5) 0 = 0 := by
  refine ⟨rfl, rfl, ?_⟩
  unfold calcDecayDate
  rw [if_neg (by simp), if_pos (by norm_num)]

/-- Claim C8 (amended): neither operation validates activity: for every
negative activity, register_container silently inserts an active row storing
the negative activity and returns the fresh id as a success, and
_calc_decay_date on a nonempty isotope list silently returns now, treating
the container as already safe; no InvalidInput failure exists in the code. -/
theorem register_negative_silent (s : State)
    (container_id label waste_type : String) (isotopes : List String)
    (a volume_l mass_kg : ℚ) (location storage_class : String) (now : ℝ)
    (ha : a < 0) :
    (∃ c : WasteContainer,
      (registerContainer s container_id label waste_type isotopes a volume_l
        mass_kg location storage_class now).2.containers = s.containers ++ [c]
      ∧ c.activity_bq = a ∧ c.status = "active"
      ∧ (registerContainer s container_id label waste_type isotopes a volume_l
          mass_kg location storage_class now).1 = container_id)
    ∧ ∀ i rest, calcDecayDate (i :: rest) a now = now := by
  constructor
  · exact ⟨_, rfl, rfl, rfl, rfl⟩
  · intro i rest
    unfold calcDecayDate
    rw [if_neg (by simp), if_pos (le_trans ha.le (by norm_num))]

/-- Claim C8 witness at activity = -5 on the empty database. -/
theorem register_negative_silent_witness :
    (-5 : ℚ) < 0 ∧ calcDecayDate ["Cs-137"] (-5) 7 = 7 :=
  ⟨by norm_num,
    (register_negative_silent s0 "id1" "Drum N" "low_level" [] (-5) 1 1
      "siteA" "low_level" 7 (by norm_num)).2 "Cs-137" []⟩

/-- Claim C9: generate_manifest fails with the not-found result when the
transfer id has no row, fails likewise when the container referenced by the
transfer row is missing, and on success joins the transfer row with the
descriptive fields of its container. -/
theorem generateManifest_join (s : State) (transfer_id : Nat) :
    (findTransfer s transfer_id = none → generateManifest s transfer_id = none)
    ∧ (∀ t, findTransfer s transfer_id = some t →
        findContainer s t.container_id = none →
        generateManifest s transfer_id = none)
    ∧ (∀ t c, findTransfer s transfer_id = some t →
        findContainer s t.container_id = some c →
        generateManifest s transfer_id = some
          { container_id := t.container_id, label := c.label,
            waste_type := c.waste_type, isotopes := c.isotopes,
            activity_bq := c.activity_bq, volume_l := c.volume_l,
            mass_kg := c.mass_kg, from_location := t.from_location,
            to_location := t.to_location, transferred_by := t.transferred_by,
            ts := t.ts, transfer_id := transfer_id }) := by
  refine ⟨?_, ?_, ?_⟩
  · intro h
    simp only [generateManifest, h]
  · intro t ht hc
    simp only [generateManifest, ht, hc]
  · intro t c ht hc
    simp only [generateManifest, ht, hc]

/-- Claim C9 witness: on the empty database every transfer id is missing and
generate_manifest returns the not-found result. -/
theorem generateManifest_join_witness : generateManifest s0 1 = none :=
  (generateManifest_join s0 1).1 rfl

/-- Claim C10: passing the empty string as the location filter of
get_inventory or total_activity, or as the waste_type filter of
get_inventory, behaves exactly like passing no filter at all, because Python
truthiness treats the empty string like None. -/
theorem emptyString_filters_ignored (s : State) (wt loc : Option String) :
    getInventory s (some "") wt = getInventory s none wt
    ∧ getInventory s loc (some "") = getInventory s loc none
    ∧ totalActivity s (some "") = totalActivity s none :=
  ⟨rfl, rfl, rfl⟩

end WasteTracker
